import Mathlib

/-!
Shallow embedding of the Mr-Dice repository: three thin server adapters
(Bohrium crystal REST adapter, MOFdb adapter, OPTIMADE adapter) exposing
materials databases as tools.  Pure Python functions become Lean
functions; fallible calls (HTTP requests, client libraries) become
`Except`-valued oracles passed as parameters; file writes become an
explicit list of (path, content) pairs returned alongside the result.
Helper code of the repository that is not part of the sources we verify
against (the OPTIMADE `utils.py` helpers, the `mofdb_client.fetch`
client) is likewise abstracted into function parameters, so every
theorem quantifies over all possible behaviours of those helpers.
-/

set_option maxRecDepth 100000

namespace MrDice

/-- A (flat) model of the Python runtime values that the adapters
inspect: `None`, strings, ints, floats (kept as their `repr` literal
plus a zero flag, the only two facts about a float the code uses), and
arbitrary other objects (kept as their `str()` rendering; Python objects
are truthy by default). -/
inductive PyVal where
  | vnone : PyVal
  | vstr : String → PyVal
  | vint : Int → PyVal
  | vfloat : String → Bool → PyVal
  | vstrlist : List String → PyVal
  | vobj : String → PyVal
deriving DecidableEq, Repr

/-- Python `str()` of a value, as used in f-strings. -/
def pyStr : PyVal → String
  | .vnone => "None"
  | .vstr s => s
  | .vint n => toString n
  | .vfloat lit _ => lit
  | .vstrlist l =>
      "[" ++ String.intercalate ", " (l.map (fun s => "\x27" ++ s ++ "\x27")) ++ "]"
  | .vobj r => r

/-- Python truthiness: `None`, `""`, `0`, `0.0` and `[]` are falsy. -/
def pyTruthy : PyVal → Bool
  | .vnone => false
  | .vstr s => s ≠ ""
  | .vint n => n ≠ 0
  | .vfloat _ isZero => !isZero
  | .vstrlist l => !l.isEmpty
  | .vobj _ => true

/-- A Python dict with string keys (insertion-ordered association list,
as CPython dicts are). -/
def PyDict := List (String × PyVal)
deriving instance DecidableEq, Repr for PyDict

/-- `dict.get(k)` / `getattr(obj, k, None)` on an attribute dict. -/
def dictGet (d : PyDict) (k : String) : Option PyVal :=
  (d.find? (fun kv => kv.1 == k)).map (·.2)

/-- Removing every key of `drops` from a dict, i.e. the effect of the
`for k in DROP_ATTRS: d.pop(k, None)` loops in the two save helpers. -/
def dropKeys (drops : List String) (d : PyDict) : PyDict :=
  d.filter (fun kv => !(drops.contains kv.1))

/-! ## SHA-1 (used for the short content hash in output-directory names)

The adapters call `hashlib.sha1(filter_str.encode("utf-8")).hexdigest()[:8]`.
We embed UTF-8 encoding and SHA-1 over `Nat` bytes (all arithmetic is
explicitly reduced mod 2^32), structurally recursive so that concrete
hashes evaluate inside the kernel. -/

/-- UTF-8 encoding of a single unicode code point. -/
def utf8Char (c : Char) : List Nat :=
  let n := c.toNat
  if n < 128 then [n]
  else if n < 2048 then [192 ||| (n >>> 6), 128 ||| (n &&& 63)]
  else if n < 65536 then
    [224 ||| (n >>> 12), 128 ||| ((n >>> 6) &&& 63), 128 ||| (n &&& 63)]
  else
    [240 ||| (n >>> 18), 128 ||| ((n >>> 12) &&& 63),
     128 ||| ((n >>> 6) &&& 63), 128 ||| (n &&& 63)]

/-- `s.encode("utf-8")` as a list of byte values. -/
def utf8Bytes (s : String) : List Nat :=
  (s.data.map utf8Char).flatten

/-- Rotate a 32-bit word left by `k` bits. -/
def rotl32 (k x : Nat) : Nat :=
  ((x <<< k) ||| (x >>> (32 - k))) % 4294967296

/-- Big-endian 8-byte encoding of the bit length. -/
def be64 (n : Nat) : List Nat :=
  [(n >>> 56) &&& 255, (n >>> 48) &&& 255, (n >>> 40) &&& 255,
   (n >>> 32) &&& 255, (n >>> 24) &&& 255, (n >>> 16) &&& 255,
   (n >>> 8) &&& 255, n &&& 255]

/-- SHA-1 message padding to a multiple of 64 bytes. -/
def sha1Pad (msg : List Nat) : List Nat :=
  let padZeros := (119 - msg.length % 64) % 64
  msg ++ [128] ++ List.replicate padZeros 0 ++ be64 (8 * msg.length)

/-- Group a byte list into big-endian 32-bit words. -/
def words32 : List Nat → List Nat
  | a :: b :: c :: d :: rest => (((a * 256 + b) * 256 + c) * 256 + d) :: words32 rest
  | _ => []

/-- Extend the 16-word schedule to 80 words; `acc` holds the schedule so
far in reverse order. -/
def sha1Extend : Nat → List Nat → List Nat
  | 0, acc => acc
  | n + 1, acc =>
      let w := rotl32 1 ((((acc.getD 2 0).xor (acc.getD 7 0)).xor
        (acc.getD 13 0)).xor (acc.getD 15 0))
      sha1Extend n (w :: acc)

structure Sha1State where
  a : Nat
  b : Nat
  c : Nat
  d : Nat
  e : Nat
deriving DecidableEq, Repr

/-- The 80 SHA-1 rounds; `i` is the index of the current round. -/
def sha1Rounds : Nat → List Nat → Sha1State → Sha1State
  | _, [], s => s
  | i, w :: ws, ⟨a, b, c, d, e⟩ =>
      let f :=
        if i < 20 then (b &&& c) ||| ((b.xor 4294967295) &&& d)
        else if i < 40 then (b.xor c).xor d
        else if i < 60 then (b &&& c) ||| (b &&& d) ||| (c &&& d)
        else (b.xor c).xor d
      let k :=
        if i < 20 then 1518500249
        else if i < 40 then 1859775393
        else if i < 60 then 2400959708
        else 3395469782
      let temp := (rotl32 5 a + f + e + k + w) % 4294967296
      sha1Rounds (i + 1) ws ⟨temp, a, rotl32 30 b, c, d⟩

/-- One SHA-1 compression step over a 64-byte block. -/
def sha1Compress (block : List Nat) (h : Sha1State) : Sha1State :=
  let schedule := (sha1Extend 64 (words32 block).reverse).reverse
  let s := sha1Rounds 0 schedule h
  ⟨(h.a + s.a) % 4294967296, (h.b + s.b) % 4294967296,
   (h.c + s.c) % 4294967296, (h.d + s.d) % 4294967296,
   (h.e + s.e) % 4294967296⟩

/-- Process `n` consecutive 64-byte blocks. -/
def sha1Loop : Nat → List Nat → Sha1State → Sha1State
  | 0, _, h => h
  | n + 1, bytes, h => sha1Loop n (bytes.drop 64) (sha1Compress (bytes.take 64) h)

/-- Big-endian bytes of a 32-bit word. -/
def be32 (n : Nat) : List Nat :=
  [(n >>> 24) &&& 255, (n >>> 16) &&& 255, (n >>> 8) &&& 255, n &&& 255]

/-- The SHA-1 digest (20 bytes) of a byte message. -/
def sha1 (msg : List Nat) : List Nat :=
  let padded := sha1Pad msg
  let h := sha1Loop (padded.length / 64) padded
    ⟨1732584193, 4023233417, 2562383102, 271733878, 3285377520⟩
  be32 h.a ++ be32 h.b ++ be32 h.c ++ be32 h.d ++ be32 h.e

/-- Lowercase hex digit. -/
def hexDigit (n : Nat) : Char :=
  if n < 10 then Char.ofNat (48 + n) else Char.ofNat (87 + n)

/-- Two-character lowercase hex of one byte. -/
def byteHex (b : Nat) : String :=
  String.mk [hexDigit (b / 16), hexDigit (b % 16)]

/-- `hashlib.sha1(s.encode("utf-8")).hexdigest()`. -/
def sha1HexOfString (s : String) : String :=
  String.join ((sha1 (utf8Bytes s)).map byteHex)

/-- Known-answer test for the SHA-1 embedding. -/
example : sha1HexOfString "abc" = "a9993e364706816aba3e25717850c26c9cd0d89d" := by decide

/-- Known-answer test: SHA-1 of the empty string. -/
example : sha1HexOfString "" = "da39a3ee5e6b4b0d3255bfef95601890afd80709" := by decide

/-! ## Python string helpers -/

/-- Characters stripped by Python's `str.strip()` (ASCII whitespace). -/
def isPySpace (c : Char) : Bool :=
  c = ' ' || c = '\t' || c = '\n' || c = '\r' || c.toNat = 11 || c.toNat = 12

/-- `s.strip()`. -/
def pyStrip (s : String) : String :=
  String.mk (((s.data.dropWhile isPySpace).reverse.dropWhile isPySpace).reverse)

/-- `s.strip("_")`. -/
def stripUnderscore (s : String) : String :=
  String.mk (((s.data.dropWhile (· = '_')).reverse.dropWhile (· = '_')).reverse)

/-- Python float parameters, kept as the facts the adapters use of them:
their `repr` (which is what f-strings and `json.dumps` print) and
whether they equal `0.0` (which decides their truthiness). -/
structure PyFloat where
  lit : String
  isZero : Bool
deriving DecidableEq, Repr

/-- `x or ''` for an optional float (both `None` and `0.0` are falsy),
rendered inside an f-string. -/
def floatOrEmpty : Option PyFloat → String
  | some f => if f.isZero then "" else f.lit
  | none => ""

/-- Truthiness of an optional string (`None` and `""` falsy). -/
def optStrTruthy : Option String → Bool
  | some s => s ≠ ""
  | none => false

/-- Truthiness of an optional list (`None` and `[]` falsy). -/
def optListTruthy {α : Type} : Option (List α) → Bool
  | some l => !l.isEmpty
  | none => false

/-- Truthiness of an optional float (`None` and `0.0` falsy). -/
def optFloatTruthy : Option PyFloat → Bool
  | some f => !f.isZero
  | none => false

/-- Insertion into an ascending list of strings (stable). -/
def insertSorted (s : String) : List String → List String
  | [] => [s]
  | t :: rest => if s ≤ t then s :: t :: rest else t :: insertSorted s rest

/-- Python `sorted` on a list of strings. -/
def sortStrings (l : List String) : List String :=
  l.foldr insertSorted []

/-! ## MOFdb utils (src/mofdb_database/mofdb_test/utils.py) -/

/-- The fixed drop set `MOFDB_DROP_ATTRS`. -/
def MOFDB_DROP_ATTRS : List String :=
  ["cif", "json_repr", "isotherms", "heats", "isotherms_filtered", "heats_filtered"]

/-- The filter parameters of the MOFdb tools (all optional). -/
structure MofFilters where
  mofid : Option String := none
  mofkey : Option String := none
  vf_min : Option PyFloat := none
  vf_max : Option PyFloat := none
  lcd_min : Option PyFloat := none
  lcd_max : Option PyFloat := none
  pld_min : Option PyFloat := none
  pld_max : Option PyFloat := none
  sa_m2g_min : Option PyFloat := none
  sa_m2g_max : Option PyFloat := none
  sa_m2cm3_min : Option PyFloat := none
  sa_m2cm3_max : Option PyFloat := none
  name : Option String := none
  database : Option String := none
deriving DecidableEq, Repr

/-- `tag_from_filters` of the MOFdb utils: build a short tag string from
the filter parameters for naming output folders. -/
def tag_from_filters (f : MofFilters) (maxLen : Nat := 40) : String :=
  let parts : List String :=
    (if optStrTruthy f.mofid then ["id" ++ (f.mofid.getD "").take 8] else []) ++
    (if optStrTruthy f.mofkey then ["key" ++ (f.mofkey.getD "").take 8] else []) ++
    (if optStrTruthy f.name then [(f.name.getD "").replace " " "_"] else []) ++
    (if optStrTruthy f.database then [(f.database.getD "").replace " " ""] else []) ++
    (if f.vf_min.isSome || f.vf_max.isSome then
      ["vf" ++ floatOrEmpty f.vf_min ++ "-" ++ floatOrEmpty f.vf_max] else []) ++
    (if f.lcd_min.isSome || f.lcd_max.isSome then
      ["lcd" ++ floatOrEmpty f.lcd_min ++ "-" ++ floatOrEmpty f.lcd_max] else []) ++
    (if f.pld_min.isSome || f.pld_max.isSome then
      ["pld" ++ floatOrEmpty f.pld_min ++ "-" ++ floatOrEmpty f.pld_max] else []) ++
    (if f.sa_m2g_min.isSome || f.sa_m2g_max.isSome then
      ["sa_g" ++ floatOrEmpty f.sa_m2g_min ++ "-" ++ floatOrEmpty f.sa_m2g_max] else []) ++
    (if f.sa_m2cm3_min.isSome || f.sa_m2cm3_max.isSome then
      ["sa_cm3" ++ floatOrEmpty f.sa_m2cm3_min ++ "-" ++ floatOrEmpty f.sa_m2cm3_max] else [])
  let tag := String.intercalate "_" (parts.filter (· ≠ ""))
  let cut := tag.take maxLen
  if cut = "" then "mofdb" else cut

/-- `_safe_basename`: make a safe, reasonably short filename stem.
`none` models a Python `None` argument. -/
def safeBasename (o : Option String) (maxLen : Nat := 80) : String :=
  let text := match o with
    | some s => s
    | none => "mof"
  let text := (text.replace "/" "_").replace "\\" "_" |>.replace " " "_"
  let text := String.mk (text.data.map
    (fun c => if c.isAlphanum || c = '.' || c = '_' || c = '-' then c else '_'))
  let text := String.mk (collapseUnderscores text.data)
  let text := stripUnderscore text
  let cut := text.take maxLen
  if cut = "" then "mof" else cut
where
  /-- `re.sub(r"_+", "_", text)`: collapse runs of underscores. -/
  collapseUnderscores : List Char → List Char
    | [] => []
    | [c] => [c]
    | a :: b :: rest =>
        if a = '_' && b = '_' then collapseUnderscores (b :: rest)
        else a :: collapseUnderscores (b :: rest)

/-- `getattr(mof, k, None)` on an attribute dict, as a `PyVal`
(`vnone` when the attribute is absent). -/
def gattr (d : PyDict) (k : String) : PyVal :=
  (dictGet d k).getD .vnone

/-- The `a or b or ...` chain of `_pick_identifier`: the first truthy
value rendered with `str`, else the fallback string. -/
def firstTruthy (vs : List PyVal) (fallback : String) : String :=
  match vs.find? pyTruthy with
  | some v => pyStr v
  | none => fallback

/-- `_pick_identifier`: prefer name → mofkey → mofid → id → idx. -/
def pickIdentifier (mof : PyDict) (idx : Nat) : String :=
  safeBasename (some (firstTruthy
    [gattr mof "name", gattr mof "mofkey", gattr mof "mofid", gattr mof "id"]
    ("idx" ++ toString idx))) 20

/-- `_provider`: use database as provider tag; fallback to "mofdb". -/
def providerOf (mof : PyDict) : String :=
  safeBasename (some (firstTruthy [gattr mof "database"] "mofdb"))

/-! ## Bohrium utils (src/bohriumpublic_database/Bohriumpublic_Server/utils.py) -/

/-- The hardcoded user id header value. -/
def x_user_id : String := "117756"

/-- The fixed drop set `CRYSTAL_DROP_ATTRS`. -/
def CRYSTAL_DROP_ATTRS : List String :=
  ["cif_file", "come_from", "material_id"]

/-- The filter parameters of the Bohrium tool. -/
structure BohFilters where
  formula : Option String := none
  elements : Option (List String) := none
  space_symbol : Option String := none
  atom_count_range : Option (List String) := none
  predicted_formation_energy_range : Option (List String) := none
  band_gap_range : Option (List String) := none
deriving DecidableEq, Repr

/-- `tag_from_filters` of the Bohrium utils: build a short tag string
from the Bohrium query filters. -/
def tag_from_filters_bohrium (f : BohFilters) (maxLen : Nat := 60) : String :=
  let parts : List String :=
    (if optStrTruthy f.formula then [(f.formula.getD "").replace " " ""] else []) ++
    (if optListTruthy f.elements then
      ["el" ++ String.join (sortStrings (f.elements.getD []))] else []) ++
    (if optStrTruthy f.space_symbol then ["sg" ++ f.space_symbol.getD ""] else []) ++
    (if optListTruthy f.atom_count_range then
      ["nat" ++ String.intercalate "-" (f.atom_count_range.getD [])] else []) ++
    (if optListTruthy f.predicted_formation_energy_range then
      ["E" ++ String.intercalate "-" (f.predicted_formation_energy_range.getD [])] else []) ++
    (if optListTruthy f.band_gap_range then
      ["Eg" ++ String.intercalate "-" (f.band_gap_range.getD [])] else [])
  let tag := String.intercalate "_" parts
  let cut := tag.take maxLen
  if cut = "" then "bohriumcrystal" else cut

/-! ## JSON serialization of the filter strings

`fetch_mofs` and `fetch_bohrium_crystals` hash
`json.dumps(filters, sort_keys=True)`-style strings.  We embed CPython's
`json.dumps` with `ensure_ascii=True` (the default) for the flat dicts
actually serialized: keys emitted in sorted order, `", "` and `": "`
separators, `None → null`, floats printed by their `repr`. -/

/-- Four lowercase hex digits. -/
def hex4 (n : Nat) : String :=
  String.mk [hexDigit (n / 4096 % 16), hexDigit (n / 256 % 16),
             hexDigit (n / 16 % 16), hexDigit (n % 16)]

/-- CPython `json.dumps` escaping of one character (`ensure_ascii`). -/
def jsonEscapeChar (c : Char) : String :=
  if c = '"' then "\\\""
  else if c = '\\' then "\\\\"
  else if c = '\n' then "\\n"
  else if c = '\r' then "\\r"
  else if c = '\t' then "\\t"
  else if c.toNat = 8 then "\\b"
  else if c.toNat = 12 then "\\f"
  else if 32 ≤ c.toNat && c.toNat ≤ 126 then String.mk [c]
  else if c.toNat < 65536 then "\\u" ++ hex4 c.toNat
  else
    let v := c.toNat - 65536
    "\\u" ++ hex4 (55296 + v / 1024) ++ "\\u" ++ hex4 (56320 + v % 1024)

/-- A JSON string literal. -/
def jsonStr (s : String) : String :=
  "\"" ++ String.join (s.data.map jsonEscapeChar) ++ "\""

/-- JSON of an optional string (`None → null`). -/
def jsonOfOptStr : Option String → String
  | some s => jsonStr s
  | none => "null"

/-- JSON of an optional float (`None → null`, else its `repr`). -/
def jsonOfOptFloat : Option PyFloat → String
  | some f => f.lit
  | none => "null"

/-- JSON of a list of strings. -/
def jsonStrList (l : List String) : String :=
  "[" ++ String.intercalate ", " (l.map jsonStr) ++ "]"

/-- The `filter_str` serialized by the MOFdb server's `fetch_mofs`
(`json.dumps({...}, sort_keys=True, default=str)`); the fifteen keys in
their sorted order. -/
def mofdbFilterStr (f : MofFilters) (nResults : Int) : String :=
  "\x7b" ++ String.intercalate ", "
    [ "\"database\": " ++ jsonOfOptStr f.database,
      "\"lcd_max\": " ++ jsonOfOptFloat f.lcd_max,
      "\"lcd_min\": " ++ jsonOfOptFloat f.lcd_min,
      "\"mofid\": " ++ jsonOfOptStr f.mofid,
      "\"mofkey\": " ++ jsonOfOptStr f.mofkey,
      "\"n_results\": " ++ toString nResults,
      "\"name\": " ++ jsonOfOptStr f.name,
      "\"pld_max\": " ++ jsonOfOptFloat f.pld_max,
      "\"pld_min\": " ++ jsonOfOptFloat f.pld_min,
      "\"sa_m2cm3_max\": " ++ jsonOfOptFloat f.sa_m2cm3_max,
      "\"sa_m2cm3_min\": " ++ jsonOfOptFloat f.sa_m2cm3_min,
      "\"sa_m2g_max\": " ++ jsonOfOptFloat f.sa_m2g_max,
      "\"sa_m2g_min\": " ++ jsonOfOptFloat f.sa_m2g_min,
      "\"vf_max\": " ++ jsonOfOptFloat f.vf_max,
      "\"vf_min\": " ++ jsonOfOptFloat f.vf_min ] ++ "\x7d"

/-- The `filters` dict built by `fetch_bohrium_crystals` (only the
truthy parameters get a key). -/
def bohFiltersDict (f : BohFilters) : List (String × PyVal) :=
  (if optListTruthy f.elements then
    [("elements", .vstrlist (f.elements.getD []))] else []) ++
  (if optStrTruthy f.space_symbol then
    [("space_symbol", .vstr (f.space_symbol.getD ""))] else []) ++
  (if optListTruthy f.atom_count_range then
    [("atomCountRange", .vstrlist (f.atom_count_range.getD []))] else []) ++
  (if optListTruthy f.predicted_formation_energy_range then
    [("predicted_formation_energy_range",
      .vstrlist (f.predicted_formation_energy_range.getD []))] else []) ++
  (if optListTruthy f.band_gap_range then
    [("band_gap_range", .vstrlist (f.band_gap_range.getD []))] else [])

/-- `json.dumps(filters, sort_keys=True)` for the Bohrium filters dict
(keys happen to sort in the order below). -/
def bohFiltersJson (f : BohFilters) : String :=
  let entries : List String :=
    (if optListTruthy f.atom_count_range then
      ["\"atomCountRange\": " ++ jsonStrList (f.atom_count_range.getD [])] else []) ++
    (if optListTruthy f.band_gap_range then
      ["\"band_gap_range\": " ++ jsonStrList (f.band_gap_range.getD [])] else []) ++
    (if optListTruthy f.elements then
      ["\"elements\": " ++ jsonStrList (f.elements.getD [])] else []) ++
    (if optListTruthy f.predicted_formation_energy_range then
      ["\"predicted_formation_energy_range\": " ++
        jsonStrList (f.predicted_formation_energy_range.getD [])] else []) ++
    (if optStrTruthy f.space_symbol then
      ["\"space_symbol\": " ++ jsonStr (f.space_symbol.getD "")] else [])
  "\x7b" ++ String.intercalate ", " entries ++ "\x7d"

/-- The `filter_str` hashed by `fetch_bohrium_crystals`:
`f"{formula or ''}|n_results={n_results}|filters={json.dumps(filters, sort_keys=True)}"`. -/
def bohFilterStr (f : BohFilters) (nResults : Int) : String :=
  (if optStrTruthy f.formula then f.formula.getD "" else "") ++
  "|n_results=" ++ toString nResults ++ "|filters=" ++ bohFiltersJson f

/-! ## File-system writes -/

/-- Output file formats. -/
inductive Format where
  | cif : Format
  | json : Format
deriving DecidableEq, Repr

/-- The manifest written by the MOFdb server's `fetch_mofs`. -/
structure MofdbManifest where
  filters : MofFilters
  n_results : Int
  n_found : Nat
  formats : List Format
  output_dir : String
deriving DecidableEq, Repr

/-- The manifest written by `fetch_bohrium_crystals`. -/
structure BohriumManifest where
  formula : Option String
  filters : List (String × PyVal)
  match_mode : Int
  n_found : Nat
  formats : List Format
  output_dir : String
deriving DecidableEq, Repr

/-- The manifest written by `fetch_structures_with_filter`. -/
structure OptRawManifest where
  filter : String
  providers_requested : List String
  providers_seen : List String
  files : List String
  warnings : List String
  format : Format
  n_results : Int
  n_found : Nat
deriving DecidableEq, Repr

/-- The manifest written by `fetch_structures_with_spg`. -/
structure OptSpgManifest where
  base_filter : String
  spg_number : Int
  providers_requested : List String
  providers_seen : List String
  files : List String
  warnings : List String
  format : Format
  n_results : Int
  per_provider_filters : List (String × String)
  n_found : Nat
deriving DecidableEq, Repr

/-- The manifest written by `fetch_structures_with_bandgap`. -/
structure OptBgManifest where
  base_filter : String
  band_gap_min : Option PyFloat
  band_gap_max : Option PyFloat
  providers_requested : List String
  providers_seen : List String
  files : List String
  warnings : List String
  format : Format
  n_results : Int
  per_provider_filters : List (String × String)
  n_found : Nat
deriving DecidableEq, Repr

/-- What a written file contains (serialization of structured data is
kept symbolic; the bytes of a `.cif` download are the oracle's answer). -/
inductive FileContent where
  | jsonDict : PyDict → FileContent
  | jsonVal : PyVal → FileContent
  | textFile : String → FileContent
  | rawBytes : String → FileContent
  | mofManifest : MofdbManifest → FileContent
  | bohManifest : BohriumManifest → FileContent
  | optRawManifest : OptRawManifest → FileContent
  | optSpgManifest : OptSpgManifest → FileContent
  | optBgManifest : OptBgManifest → FileContent
deriving DecidableEq, Repr

/-- A file write: absolute-ish path and content. -/
def Writes := List (String × FileContent)

/-! ## save_structures_bohriumcrystal
(src/bohriumpublic_database/Bohriumpublic_Server/utils.py, lines 121-176) -/

/-- The per-record body of `save_structures_bohriumcrystal` for record
`struct` at index `i`: the files written, the log lines, and the cleaned
copy. -/
def bohStructId (struct : PyDict) (i : Nat) : String :=
  match dictGet struct "id" with
  | some v => pyStr v
  | none => "idx" ++ toString i

/-- The file stem `f"bohriumcrystal_{struct_id}_{i}"`. -/
def bohCrystalName (struct : PyDict) (i : Nat) : String :=
  "bohriumcrystal_" ++ bohStructId struct i ++ "_" ++ toString i

def saveBohriumOne (httpGet : String → Except String String) (outputDir : String)
    (formats : List Format) (i : Nat) (struct : PyDict) :
    List (String × FileContent) × List String × PyDict :=
  let structId := bohStructId struct i
  let name := bohCrystalName struct i
  let jsonWrites :=
    if formats.contains Format.json then
      [(outputDir ++ "/" ++ name ++ ".json", FileContent.jsonDict struct)]
    else []
  let (cifWrites, cifLogs) :=
    if formats.contains Format.cif then
      match dictGet struct "cif_file" with
      | some v =>
          if pyTruthy v then
            match httpGet (pyStr v) with
            | .ok content =>
                ([(outputDir ++ "/" ++ name ++ ".cif", FileContent.rawBytes content)],
                 ["Saved CIF for " ++ structId ++ " -> " ++ name ++ ".cif"])
            | .error e =>
                ([], ["Failed to download CIF for " ++ structId ++ ": " ++ e])
          else ([], ["No CIF URL for " ++ structId])
      | none => ([], ["No CIF URL for " ++ structId])
    else ([], [])
  (jsonWrites ++ cifWrites, cifLogs, dropKeys CRYSTAL_DROP_ATTRS struct)

/-- The loop of `save_structures_bohriumcrystal`, from index `i`. -/
def saveBohriumFrom (httpGet : String → Except String String) (outputDir : String)
    (formats : List Format) : Nat → List PyDict →
    List (String × FileContent) × List String × List PyDict
  | _, [] => ([], [], [])
  | i, struct :: rest =>
      let (ws, ls, cleaned) := saveBohriumOne httpGet outputDir formats i struct
      let (ws2, ls2, cleaned2) := saveBohriumFrom httpGet outputDir formats (i + 1) rest
      (ws ++ ws2, ls ++ ls2, cleaned :: cleaned2)

/-- `save_structures_bohriumcrystal`: save Bohrium crystal structures as
JSON and/or CIF files; returns (writes, logs, cleaned). -/
def save_structures_bohriumcrystal (items : List PyDict) (outputDir : String)
    (formats : List Format) (httpGet : String → Except String String) :
    List (String × FileContent) × List String × List PyDict :=
  saveBohriumFrom httpGet outputDir formats 0 items

/-! ## save_mofs (src/mofdb_database/mofdb_test/utils.py, lines 103-162) -/

/-- The JSON payload chosen by `save_mofs` for one MOF: `json_repr`
verbatim when usable, else the serialized `__dict__`.  `jsonParse`
stands for `json.loads`. -/
def mofJsonContent (jsonParse : String → Option PyVal) (mof : PyDict) : FileContent :=
  match gattr mof "json_repr" with
  | .vnone => .jsonDict mof
  | .vstr s =>
      match jsonParse s with
      | some v => .jsonVal v
      | none => .jsonDict [("raw", .vstr s)]
  | v => .jsonVal v

/-- The file stem `_safe_basename(f"{prov}_{ident}_{i}")` of `save_mofs`. -/
def mofStem (mof : PyDict) (i : Nat) : String :=
  safeBasename (some (providerOf mof ++ "_" ++ pickIdentifier mof i ++ "_" ++ toString i)) 80

/-- The per-record body of `save_mofs` for `mof` at index `i`. -/
def saveMofsOne (jsonParse : String → Option PyVal) (outputDir : String)
    (formats : List Format) (i : Nat) (mof : PyDict) :
    List (String × FileContent) × List String × PyDict :=
  let prov := providerOf mof
  let ident := pickIdentifier mof i
  let stem := mofStem mof i
  let jsonWrites :=
    if formats.contains Format.json then
      [(outputDir ++ "/" ++ stem ++ ".json", mofJsonContent jsonParse mof)]
    else []
  let (cifWrites, cifLogs) :=
    if formats.contains Format.cif then
      let cifTxt := gattr mof "cif"
      if pyTruthy cifTxt then
        ([(outputDir ++ "/" ++ stem ++ ".cif", FileContent.textFile (pyStr cifTxt))], [])
      else ([], ["No CIF content for " ++ ident ++ " (" ++ prov ++ ")"])
    else ([], [])
  (jsonWrites ++ cifWrites, cifLogs, dropKeys MOFDB_DROP_ATTRS mof)

/-- The loop of `save_mofs`, from index `i`. -/
def saveMofsFrom (jsonParse : String → Option PyVal) (outputDir : String)
    (formats : List Format) : Nat → List PyDict →
    List (String × FileContent) × List String × List PyDict
  | _, [] => ([], [], [])
  | i, mof :: rest =>
      let (ws, ls, cleaned) := saveMofsOne jsonParse outputDir formats i mof
      let (ws2, ls2, cleaned2) := saveMofsFrom jsonParse outputDir formats (i + 1) rest
      (ws ++ ws2, ls ++ ls2, cleaned :: cleaned2)

/-- `save_mofs`: save MOFdb entries as JSON and/or CIF files and return
cleaned metadata; returns (writes, logs, cleaned). -/
def save_mofs (items : List PyDict) (outputDir : String) (formats : List Format)
    (jsonParse : String → Option PyVal) :
    List (String × FileContent) × List String × List PyDict :=
  saveMofsFrom jsonParse outputDir formats 0 items

/-! ## fetch_bohrium_crystals
(src/bohriumpublic_database/bohriumpublic_test/test_server.py, lines 34-162) -/

/-- The JSON payload of the Bohrium crystal-list request. -/
structure BohPayload where
  material_type : String
  keyword : String
  positive_pole_key : List (String × PyVal)
  match_mode : Int
  sort_filed : String
  sort_type : Int
  size : Int
  page : Int
deriving DecidableEq, Repr

/-- The HTTP request issued by `fetch_bohrium_crystals`. -/
structure BohRequest where
  url : String
  headers : List (String × String)
  payload : BohPayload
deriving DecidableEq, Repr

def DB_CORE_HOST : String := "https://db-core.dp.tech"

/-- Steps 1-2 of `fetch_bohrium_crystals`: build the filters dict, the
headers and the payload.  `_env` stands for the process environment
(`load_dotenv` runs at import time); the construction reads none of it. -/
def buildBohRequest (_env : String → Option String) (f : BohFilters)
    (matchMode : Int) (nResults : Int) : BohRequest :=
  { url := DB_CORE_HOST ++ "/api/v1/crystal/list",
    headers := [("X-User-Id", x_user_id), ("Content-Type", "application/json")],
    payload :=
      { material_type := "5",
        keyword := if optStrTruthy f.formula then f.formula.getD "" else "",
        positive_pole_key := bohFiltersDict f,
        match_mode :=
          if optStrTruthy f.formula || optListTruthy f.elements then matchMode else 0,
        sort_filed := "crystal_ext.predicted_formation_energy",
        sort_type := 1,
        size := nResults,
        page := 1 } }

def BASE_OUTPUT_DIR_BOHRIUM : String := "materials_data_bohrium"

/-- The observable run of the Bohrium tool: its returned `FetchResult`
fields plus the issued requests, file writes and log lines. -/
structure BohToolRun where
  output_dir : String
  cleaned_structures : List PyDict
  n_found : Nat
  writes : List (String × FileContent)
  requests : List BohRequest
  logs : List String
deriving DecidableEq, Repr

/-- `fetch_bohrium_crystals`.  `httpPost` stands for
`requests.post(...).json()` followed by the
`data.get("data", {}).get("data", [])` extraction (any failure in that
chain is the `.error` case); `httpGet` stands for the CIF downloads. -/
def fetch_bohrium_crystals (f : BohFilters) (matchMode : Int) (nResults : Int)
    (formats : List Format) (_env : String → Option String)
    (httpPost : BohRequest → Except String (List PyDict))
    (httpGet : String → Except String String) (ts : String) : BohToolRun :=
  let req := buildBohRequest _env f matchMode nResults
  match httpPost req with
  | .error e => ⟨"", [], 0, [], [req], ["Request failed: " ++ e]⟩
  | .ok items =>
      if items.isEmpty then ⟨"", [], 0, [], [req], ["No structures found."]⟩
      else
        let nFound := items.length
        let tag := tag_from_filters_bohrium f 60
        let shortHash := (sha1HexOfString (bohFilterStr f nResults)).take 8
        let outputDir := BASE_OUTPUT_DIR_BOHRIUM ++ "/" ++ tag ++ "_" ++ ts ++ "_" ++ shortHash
        let (ws, logs, cleaned) := save_structures_bohriumcrystal items outputDir formats httpGet
        let manifest : BohriumManifest :=
          ⟨f.formula, bohFiltersDict f, matchMode, nFound, formats, outputDir⟩
        ⟨outputDir, cleaned, nFound,
         ws ++ [(outputDir ++ "/summary.json", .bohManifest manifest)], [req], logs⟩

/-! ## fetch_mofs (src/mofdb_database/Mofdb_Server/server.py, lines 58-172) -/

/-- The keyword arguments of one `mofdb_client.fetch` invocation. -/
structure MofdbFetchCall where
  mofid : Option String
  mofkey : Option String
  vf_min : Option PyFloat
  vf_max : Option PyFloat
  lcd_min : Option PyFloat
  lcd_max : Option PyFloat
  pld_min : Option PyFloat
  pld_max : Option PyFloat
  sa_m2g_min : Option PyFloat
  sa_m2g_max : Option PyFloat
  sa_m2cm3_min : Option PyFloat
  sa_m2cm3_max : Option PyFloat
  name : Option String
  database : Option String
  limit : Int
deriving DecidableEq, Repr

def BASE_OUTPUT_DIR_MOFDB : String := "materials_data_mofdb"

def MAX_RETURNED_STRUCTS_MOFDB : Nat := 30

/-- The observable run of the MOFdb tool: its returned `FetchResult`
fields plus the issued client calls, file writes and log lines. -/
structure MofToolRun where
  output_dir : String
  cleaned_structures : List PyDict
  n_found : Nat
  code : Int
  message : String
  writes : List (String × FileContent)
  issuedCalls : List MofdbFetchCall
  logs : List String
deriving DecidableEq, Repr

/-- `fetch_mofs` of the MOFdb MCP server.  `fetchClient` stands for
`list(mofdb_client.fetch(...))` (the `.error` case is any exception);
`jsonParse` stands for `json.loads`; `ts` is the formatted timestamp. -/
def mkMofdbCall (f : MofFilters) (nResults : Int) : MofdbFetchCall :=
  ⟨f.mofid, f.mofkey, f.vf_min, f.vf_max, f.lcd_min, f.lcd_max, f.pld_min,
   f.pld_max, f.sa_m2g_min, f.sa_m2g_max, f.sa_m2cm3_min, f.sa_m2cm3_max,
   f.name, f.database, nResults⟩

def fetch_mofs (f : MofFilters) (nResults : Int) (formats : List Format)
    (fetchClient : MofdbFetchCall → Except String (List PyDict))
    (jsonParse : String → Option PyVal) (ts : String) : MofToolRun :=
  let call : MofdbFetchCall := mkMofdbCall f nResults
  let results := match fetchClient call with
    | .ok rs => rs
    | .error _ => []
  let tag := tag_from_filters f 40
  let shortHash := (sha1HexOfString (mofdbFilterStr f nResults)).take 8
  let outputDir := BASE_OUTPUT_DIR_MOFDB ++ "/" ++ tag ++ "_" ++ ts ++ "_" ++ shortHash
  let (ws, logs, cleaned0) := save_mofs results outputDir formats jsonParse
  let cleaned := cleaned0.take MAX_RETURNED_STRUCTS_MOFDB
  let nFound := cleaned.length
  let manifest : MofdbManifest := ⟨f, nResults, nFound, formats, outputDir⟩
  ⟨outputDir, cleaned, nFound, 0, "Success",
   ws ++ [(outputDir ++ "/summary.json", .mofManifest manifest)], [call], logs⟩

/-! ## OPTIMADE tools (src/optimade_database/Optimade_Server/server.py)

The OPTIMADE `utils.py` helpers (`normalize_cfr_in_filter`,
`filter_to_tag`, `save_structures`, the provider tables and
`get_spg_filter_map` / `get_bandgap_filter_map` /
`build_provider_filters`) are not among the sources, so they appear as
function parameters: every theorem below holds for all of their
behaviours. -/

/-- An aggregated OPTIMADE query result, the `{"structures": {...}}`
dict returned by `OptimadeClient.get` (inner values opaque). -/
structure OptStructures where
  structures : List (String × PyVal)
deriving DecidableEq, Repr

/-- The empty result stub `{"structures": {}}`. -/
def emptyStub : OptStructures := ⟨[]⟩

/-- The quadruple returned by the (imported) `save_structures` helper:
files, warnings, providers seen, cleaned structures. -/
structure SaveOut where
  files : List String
  warnings : List String
  providersSeen : List String
  cleaned : List PyDict
deriving DecidableEq, Repr

def BASE_OUTPUT_DIR_OPTIMADE : String := "materials_data"

/-- `set(providers) if providers else DEFAULTS` (as a list; the set
order never matters below). -/
def usedProviders (providersArg : Option (List String)) (defaults : List String) :
    List String :=
  if optListTruthy providersArg then providersArg.getD [] else defaults

def MAX_RETURNED_STRUCTS : Nat := 100

/-- The observable run of `fetch_structures_with_filter`. -/
structure OptToolRun where
  output_dir : String
  cleaned_structures : List PyDict
  n_found : Nat
  writes : List (String × FileContent)
deriving DecidableEq, Repr

/-- `fetch_structures_with_filter`.  `clientGet` stands for
`OptimadeClient(base_urls, max_results_per_provider, ...).get(filter)`
(`SystemExit` and every other exception are the `.error` case). -/
def fetch_structures_with_filter (filter : String) (asFormat : Format)
    (nResults : Int) (providersArg : Option (List String))
    (DEFAULT_PROVIDERS : List String) (normalize : String → String)
    (urlsOf : String → List String)
    (clientGet : List String → Int → String → Except String OptStructures)
    (save : OptStructures → String → Int → Bool → SaveOut)
    (filter_to_tag : String → String) (ts : String) : OptToolRun :=
  let filt0 := pyStrip filter
  if filt0 = "" then ⟨"", [], 0, []⟩
  else
    let filt := normalize filt0
    let used := usedProviders providersArg DEFAULT_PROVIDERS
    let usedUrls := (used.map urlsOf).flatten
    match clientGet usedUrls nResults filt with
    | .error _ => ⟨"", [], 0, []⟩
    | .ok results =>
        let tag := filter_to_tag filt
        let short := (sha1HexOfString filt).take 8
        let outFolder := BASE_OUTPUT_DIR_OPTIMADE ++ "/" ++ tag ++ "_" ++ ts ++ "_" ++ short
        let so := save results outFolder nResults (asFormat = Format.cif)
        let manifest : OptRawManifest :=
          ⟨filt, sortStrings used, so.providersSeen, so.files, so.warnings,
           asFormat, nResults, so.cleaned.length⟩
        let truncated := so.cleaned.take MAX_RETURNED_STRUCTS
        ⟨outFolder, truncated, truncated.length,
         [(outFolder ++ "/summary.json", .optRawManifest manifest)]⟩

/-- `_query_one` (shared verbatim by `fetch_structures_with_spg` and
`fetch_structures_with_bandgap`): query one provider, converting the
no-URL case and every exception (`SystemExit` included) into the empty
result stub. -/
def queryOne (urlsOf : String → List String)
    (clientGet : List String → Int → String → Except String OptStructures)
    (nResults : Int) (provider clause : String) : OptStructures :=
  let providerUrls := urlsOf provider
  if providerUrls.isEmpty then emptyStub
  else
    match clientGet providerUrls nResults clause with
    | .ok r => r
    | .error _ => emptyStub

/-- The parallel fan-out of the space-group and band-gap tools: one
`_query_one` task per `(provider, clause)` pair of the filters dict.
The subsequent `asyncio.gather(..., return_exceptions=True)`
normalization loop maps exceptions to `emptyStub`; in this embedding
`queryOne` is already total, so the loop is the identity. -/
def fanOut (urlsOf : String → List String)
    (clientGet : List String → Int → String → Except String OptStructures)
    (nResults : Int) (filters : List (String × String)) : List OptStructures :=
  filters.map (fun pc => queryOne urlsOf clientGet nResults pc.1 pc.2)

/-- The observable run of the two fan-out tools, with the per-provider
normalized results that the saving loop consumes. -/
structure OptFanoutRun where
  output_dir : String
  cleaned_structures : List PyDict
  n_found : Nat
  writes : List (String × FileContent)
  providerResults : List OptStructures
deriving DecidableEq, Repr

/-- `fetch_structures_with_spg`.  `filters` is the per-provider clause
dict produced by `build_provider_filters(base, get_spg_filter_map(...))`
(helper not among the sources, hence a parameter). -/
def fetch_structures_with_spg (baseFilter : Option String) (spgNumber : Int)
    (asFormat : Format) (nResults : Int) (providersArg : Option (List String))
    (DEFAULT_SPG_PROVIDERS : List String) (normalize : String → String)
    (filters : List (String × String)) (urlsOf : String → List String)
    (clientGet : List String → Int → String → Except String OptStructures)
    (save : OptStructures → String → Int → Bool → SaveOut)
    (filter_to_tag : String → String) (ts : String) : OptFanoutRun :=
  let base := normalize (pyStrip (baseFilter.getD ""))
  let used := usedProviders providersArg DEFAULT_SPG_PROVIDERS
  if filters.isEmpty then ⟨"", [], 0, [], []⟩
  else
    let normResults := fanOut urlsOf clientGet nResults filters
    let tag := filter_to_tag (base ++ " AND spg=" ++ toString spgNumber)
    let short := (sha1HexOfString (base ++ "|spg=" ++ toString spgNumber)).take 8
    let outFolder := BASE_OUTPUT_DIR_OPTIMADE ++ "/" ++ tag ++ "_" ++ ts ++ "_" ++ short
    let saved := normResults.map (fun r => save r outFolder nResults (asFormat = Format.cif))
    let allFiles := (saved.map (·.files)).flatten
    let allWarns := (saved.map (·.warnings)).flatten
    let allProviders := (saved.map (·.providersSeen)).flatten
    let allCleaned := (saved.map (·.cleaned)).flatten
    let manifest : OptSpgManifest :=
      ⟨base, spgNumber, sortStrings used, allProviders, allFiles, allWarns,
       asFormat, nResults, filters, allCleaned.length⟩
    let truncated := allCleaned.take MAX_RETURNED_STRUCTS
    ⟨outFolder, truncated, truncated.length,
     [(outFolder ++ "/summary.json", .optSpgManifest manifest)], normResults⟩

/-- `str()` of an optional float (`None → "None"`), as in the band-gap
tool's f-strings. -/
def optFloatStr : Option PyFloat → String
  | some f => f.lit
  | none => "None"

/-- `fetch_structures_with_bandgap`; same structure as the space-group
tool with band-gap clauses. -/
def fetch_structures_with_bandgap (baseFilter : Option String)
    (minBg maxBg : Option PyFloat) (asFormat : Format) (nResults : Int)
    (providersArg : Option (List String)) (DEFAULT_BG_PROVIDERS : List String)
    (normalize : String → String) (filters : List (String × String))
    (urlsOf : String → List String)
    (clientGet : List String → Int → String → Except String OptStructures)
    (save : OptStructures → String → Int → Bool → SaveOut)
    (filter_to_tag : String → String) (ts : String) : OptFanoutRun :=
  let base := normalize (pyStrip (baseFilter.getD ""))
  let used := usedProviders providersArg DEFAULT_BG_PROVIDERS
  if filters.isEmpty then ⟨"", [], 0, [], []⟩
  else
    let normResults := fanOut urlsOf clientGet nResults filters
    let tag := filter_to_tag (base ++ " AND bandgap[" ++ optFloatStr minBg ++ "," ++
      optFloatStr maxBg ++ "]")
    let short := (sha1HexOfString (base ++ "|bg=" ++ optFloatStr minBg ++ ":" ++
      optFloatStr maxBg)).take 8
    let outFolder := BASE_OUTPUT_DIR_OPTIMADE ++ "/" ++ tag ++ "_" ++ ts ++ "_" ++ short
    let saved := normResults.map (fun r => save r outFolder nResults (asFormat = Format.cif))
    let allFiles := (saved.map (·.files)).flatten
    let allWarns := (saved.map (·.warnings)).flatten
    let allProviders := (saved.map (·.providersSeen)).flatten
    let allCleaned := (saved.map (·.cleaned)).flatten
    let manifest : OptBgManifest :=
      ⟨base, minBg, maxBg, sortStrings used, allProviders, allFiles, allWarns,
       asFormat, nResults, filters, allCleaned.length⟩
    let truncated := allCleaned.take MAX_RETURNED_STRUCTS
    ⟨outFolder, truncated, truncated.length,
     [(outFolder ++ "/summary.json", .optBgManifest manifest)], normResults⟩

/-- Known-answer test: the serialized MOFdb filter string for default
filters, byte-identical to CPython's `json.dumps` output. -/
example :
    mofdbFilterStr {} 10
      = "\x7b\"database\": null, \"lcd_max\": null, \"lcd_min\": null, \"mofid\": null, \"mofkey\": null, \"n_results\": 10, \"name\": null, \"pld_max\": null, \"pld_min\": null, \"sa_m2cm3_max\": null, \"sa_m2cm3_min\": null, \"sa_m2g_max\": null, \"sa_m2g_min\": null, \"vf_max\": null, \"vf_min\": null\x7d" := by
  decide

/-- Known-answer test: same as CPython including the short hash. -/
example : (sha1HexOfString (mofdbFilterStr {} 10)).take 8 = "74d85f1f" := by decide

/-- Known-answer test: a populated MOFdb filter string. -/
example :
    mofdbFilterStr
      { mofid := some "abc", vf_min := some ⟨"0.5", false⟩,
        lcd_max := some ⟨"6.0", false⟩, name := some "tob mof" } 3
      = "\x7b\"database\": null, \"lcd_max\": 6.0, \"lcd_min\": null, \"mofid\": \"abc\", \"mofkey\": null, \"n_results\": 3, \"name\": \"tob mof\", \"pld_max\": null, \"pld_min\": null, \"sa_m2cm3_max\": null, \"sa_m2cm3_min\": null, \"sa_m2g_max\": null, \"sa_m2g_min\": null, \"vf_max\": null, \"vf_min\": 0.5\x7d" := by
  decide

/-- Known-answer test: the Bohrium filter string, as CPython builds it. -/
example :
    bohFilterStr
      { formula := some "SiO3", elements := some ["Na"],
        atom_count_range := some ["1", "100"] } 10
      = "SiO3|n_results=10|filters=\x7b\"atomCountRange\": [\"1\", \"100\"], \"elements\": [\"Na\"]\x7d" := by
  decide

/-- Known-answer test: Bohrium filter string short hash. -/
example :
    (sha1HexOfString (bohFilterStr
      { formula := some "SiO3", elements := some ["Na"],
        atom_count_range := some ["1", "100"] } 10)).take 8 = "9bbe2610" := by
  decide

/-! ## Helper lemmas -/

theorem saveBohriumOne_cleaned (g : String → Except String String) (d : String)
    (fmts : List Format) (i : Nat) (s : PyDict) :
    (saveBohriumOne g d fmts i s).2.2 = dropKeys CRYSTAL_DROP_ATTRS s := rfl

theorem saveMofsOne_cleaned (jp : String → Option PyVal) (d : String)
    (fmts : List Format) (i : Nat) (s : PyDict) :
    (saveMofsOne jp d fmts i s).2.2 = dropKeys MOFDB_DROP_ATTRS s := rfl

theorem saveBohriumFrom_cleaned (g : String → Except String String) (d : String)
    (fmts : List Format) :
    ∀ (i : Nat) (items : List PyDict),
      (saveBohriumFrom g d fmts i items).2.2 = items.map (dropKeys CRYSTAL_DROP_ATTRS)
  | _, [] => rfl
  | i, s :: rest => by
      simpa [saveBohriumFrom, saveBohriumOne_cleaned] using
        saveBohriumFrom_cleaned g d fmts (i + 1) rest

theorem saveMofsFrom_cleaned (jp : String → Option PyVal) (d : String)
    (fmts : List Format) :
    ∀ (i : Nat) (items : List PyDict),
      (saveMofsFrom jp d fmts i items).2.2 = items.map (dropKeys MOFDB_DROP_ATTRS)
  | _, [] => rfl
  | i, s :: rest => by
      simpa [saveMofsFrom, saveMofsOne_cleaned] using
        saveMofsFrom_cleaned jp d fmts (i + 1) rest

theorem saveBohriumFrom_writes (g : String → Except String String) (d : String)
    (fmts : List Format) :
    ∀ (i : Nat) (items : List PyDict),
      (saveBohriumFrom g d fmts i items).1
        = ((items.enumFrom i).map (fun p => (saveBohriumOne g d fmts p.1 p.2).1)).flatten
  | _, [] => rfl
  | i, s :: rest => by
      simp [saveBohriumFrom, List.enumFrom, saveBohriumFrom_writes g d fmts (i + 1) rest]

theorem saveMofsFrom_writes (jp : String → Option PyVal) (d : String)
    (fmts : List Format) :
    ∀ (i : Nat) (items : List PyDict),
      (saveMofsFrom jp d fmts i items).1
        = ((items.enumFrom i).map (fun p => (saveMofsOne jp d fmts p.1 p.2).1)).flatten
  | _, [] => rfl
  | i, s :: rest => by
      simp [saveMofsFrom, List.enumFrom, saveMofsFrom_writes jp d fmts (i + 1) rest]

theorem dictGet_dropKeys (drops : List String) (k : String) :
    ∀ d : PyDict,
      dictGet (dropKeys drops d) k = if drops.contains k then none else dictGet d k
  | [] => by simp [dropKeys, dictGet]
  | (a, v) :: rest => by
      have ih := dictGet_dropKeys drops k rest
      by_cases ha : drops.contains a <;> by_cases hak : a = k <;>
        simp_all [dropKeys, dictGet, List.find?_cons]

/-! ## Claim theorems -/

/-- C3: for every list of input records, the cleaned list returned by
`save_structures_bohriumcrystal` (resp. `save_mofs`) has the same length
as the input, and its i-th element is the i-th input record with
exactly the keys of `CRYSTAL_DROP_ATTRS` (resp. `MOFDB_DROP_ATTRS`)
removed — looking up a dropped key yields nothing and looking up any
other key yields the original value. -/
theorem cleaned_lists_drop_exactly_fixed_attrs
    (items mitems : List PyDict) (dir mdir : String) (fmts mfmts : List Format)
    (httpGet : String → Except String String) (jsonParse : String → Option PyVal) :
    (save_structures_bohriumcrystal items dir fmts httpGet).2.2
        = items.map (dropKeys CRYSTAL_DROP_ATTRS)
    ∧ (save_structures_bohriumcrystal items dir fmts httpGet).2.2.length = items.length
    ∧ (save_mofs mitems mdir mfmts jsonParse).2.2
        = mitems.map (dropKeys MOFDB_DROP_ATTRS)
    ∧ (save_mofs mitems mdir mfmts jsonParse).2.2.length = mitems.length
    ∧ (∀ (drops : List String) (d : PyDict) (k : String),
        dictGet (dropKeys drops d) k
          = if drops.contains k then none else dictGet d k) := by
  refine ⟨saveBohriumFrom_cleaned httpGet dir fmts 0 items, ?_,
          saveMofsFrom_cleaned jsonParse mdir mfmts 0 mitems, ?_,
          fun drops d k => dictGet_dropKeys drops k d⟩
  · rw [save_structures_bohriumcrystal, saveBohriumFrom_cleaned, List.length_map]
  · rw [save_mofs, saveMofsFrom_cleaned, List.length_map]

/-- C5: `fetch_mofs` issues exactly one client call, whose fourteen
filter fields equal its own filter parameters under the same names and
whose `limit` equals `n_results`, unchanged. -/
theorem fetch_mofs_forwards_filters_unchanged
    (f : MofFilters) (nResults : Int) (formats : List Format)
    (fetchClient : MofdbFetchCall → Except String (List PyDict))
    (jsonParse : String → Option PyVal) (ts : String) :
    (fetch_mofs f nResults formats fetchClient jsonParse ts).issuedCalls
        = [mkMofdbCall f nResults]
    ∧ (mkMofdbCall f nResults).mofid = f.mofid
    ∧ (mkMofdbCall f nResults).mofkey = f.mofkey
    ∧ (mkMofdbCall f nResults).vf_min = f.vf_min
    ∧ (mkMofdbCall f nResults).vf_max = f.vf_max
    ∧ (mkMofdbCall f nResults).lcd_min = f.lcd_min
    ∧ (mkMofdbCall f nResults).lcd_max = f.lcd_max
    ∧ (mkMofdbCall f nResults).pld_min = f.pld_min
    ∧ (mkMofdbCall f nResults).pld_max = f.pld_max
    ∧ (mkMofdbCall f nResults).sa_m2g_min = f.sa_m2g_min
    ∧ (mkMofdbCall f nResults).sa_m2g_max = f.sa_m2g_max
    ∧ (mkMofdbCall f nResults).sa_m2cm3_min = f.sa_m2cm3_min
    ∧ (mkMofdbCall f nResults).sa_m2cm3_max = f.sa_m2cm3_max
    ∧ (mkMofdbCall f nResults).name = f.name
    ∧ (mkMofdbCall f nResults).database = f.database
    ∧ (mkMofdbCall f nResults).limit = nResults :=
  ⟨rfl, rfl, rfl, rfl, rfl, rfl, rfl, rfl, rfl, rfl, rfl, rfl, rfl, rfl, rfl, rfl⟩

/-- C8: the Bohrium adapter's request headers are the hardcoded pair
`X-User-Id = '117756'` plus the content type, identical for all filter
inputs and all environments, on every request the tool issues. -/
theorem bohrium_xuserid_header_hardcoded
    (f f2 : BohFilters) (m m2 nR nR2 : Int) (env env2 : String → Option String)
    (formats : List Format)
    (httpPost : BohRequest → Except String (List PyDict))
    (httpGet : String → Except String String) (ts : String) :
    (buildBohRequest env f m nR).headers
        = [("X-User-Id", "117756"), ("Content-Type", "application/json")]
    ∧ (buildBohRequest env f m nR).headers = (buildBohRequest env2 f2 m2 nR2).headers
    ∧ x_user_id = "117756"
    ∧ ∀ r ∈ (fetch_bohrium_crystals f m nR formats env httpPost httpGet ts).requests,
        r.headers = [("X-User-Id", "117756"), ("Content-Type", "application/json")] := by
  refine ⟨rfl, rfl, rfl, fun r hr => ?_⟩
  have hreq : r = buildBohRequest env f m nR := by
    rw [fetch_bohrium_crystals] at hr
    rcases h : httpPost (buildBohRequest env f m nR) with e | items <;>
      rw [h] at hr
    · simpa using hr
    · by_cases hi : items.isEmpty <;> simp [hi] at hr <;> exact hr
  rw [hreq]; rfl

/-- C10: `fetch_mofs` returns `code = 0` and `message = "Success"` for
every input; when the underlying fetch raises, execution still reaches
saving and manifest writing, returning the success envelope with an
empty cleaned list. -/
theorem fetch_mofs_always_success
    (f : MofFilters) (nResults : Int) (formats : List Format)
    (fetchClient : MofdbFetchCall → Except String (List PyDict))
    (jsonParse : String → Option PyVal) (ts : String) :
    (fetch_mofs f nResults formats fetchClient jsonParse ts).code = 0
    ∧ (fetch_mofs f nResults formats fetchClient jsonParse ts).message = "Success"
    ∧ (∀ e, fetchClient (mkMofdbCall f nResults) = Except.error e →
        (fetch_mofs f nResults formats fetchClient jsonParse ts).cleaned_structures = []
        ∧ (fetch_mofs f nResults formats fetchClient jsonParse ts).n_found = 0
        ∧ ∃ m : MofdbManifest,
            ((fetch_mofs f nResults formats fetchClient jsonParse ts).output_dir
              ++ "/summary.json", FileContent.mofManifest m)
            ∈ (fetch_mofs f nResults formats fetchClient jsonParse ts).writes) := by
  refine ⟨rfl, rfl, fun e he => ?_⟩
  simp [fetch_mofs, he, save_mofs, saveMofsFrom]

/-- C9: all three OPTIMADE tools and the MOFdb `fetch_mofs` return
`n_found` equal to the length of the returned cleaned list, which never
exceeds the cap (`MAX_RETURNED_STRUCTS = 100`, resp. 30 for MOFdb),
the list being truncated before `n_found` is computed. -/
theorem n_found_equals_cleaned_length_and_capped
    (filter : String) (asFormat : Format) (nResults : Int)
    (providersArg : Option (List String)) (DEFAULT_PROVIDERS : List String)
    (normalize : String → String) (urlsOf : String → List String)
    (clientGet : List String → Int → String → Except String OptStructures)
    (save : OptStructures → String → Int → Bool → SaveOut)
    (filter_to_tag : String → String) (ts : String)
    (baseFilter : Option String) (spgNumber : Int) (minBg maxBg : Option PyFloat)
    (DEFAULTS_SPG DEFAULTS_BG : List String)
    (filtersSpg filtersBg : List (String × String))
    (mf : MofFilters) (mNR : Int) (mFormats : List Format)
    (fetchClient : MofdbFetchCall → Except String (List PyDict))
    (jsonParse : String → Option PyVal) (mts : String) :
    let r := fetch_structures_with_filter filter asFormat nResults providersArg
      DEFAULT_PROVIDERS normalize urlsOf clientGet save filter_to_tag ts
    let s := fetch_structures_with_spg baseFilter spgNumber asFormat nResults
      providersArg DEFAULTS_SPG normalize filtersSpg urlsOf clientGet save
      filter_to_tag ts
    let b := fetch_structures_with_bandgap baseFilter minBg maxBg asFormat nResults
      providersArg DEFAULTS_BG normalize filtersBg urlsOf clientGet save
      filter_to_tag ts
    let m := fetch_mofs mf mNR mFormats fetchClient jsonParse mts
    (r.n_found = r.cleaned_structures.length ∧ r.n_found ≤ MAX_RETURNED_STRUCTS)
    ∧ (s.n_found = s.cleaned_structures.length ∧ s.n_found ≤ MAX_RETURNED_STRUCTS)
    ∧ (b.n_found = b.cleaned_structures.length ∧ b.n_found ≤ MAX_RETURNED_STRUCTS)
    ∧ (m.n_found = m.cleaned_structures.length ∧ m.n_found ≤ MAX_RETURNED_STRUCTS_MOFDB)
    ∧ MAX_RETURNED_STRUCTS = 100 ∧ MAX_RETURNED_STRUCTS_MOFDB = 30 := by
  refine ⟨⟨?_, ?_⟩, ⟨?_, ?_⟩, ⟨?_, ?_⟩, ⟨?_, ?_⟩, rfl, rfl⟩
  · unfold fetch_structures_with_filter
    dsimp only
    split
    · rfl
    · split <;> rfl
  · unfold fetch_structures_with_filter
    dsimp only
    split
    · simp [MAX_RETURNED_STRUCTS]
    · split <;> simp [MAX_RETURNED_STRUCTS, List.length_take]
  · unfold fetch_structures_with_spg
    dsimp only
    split <;> rfl
  · unfold fetch_structures_with_spg
    dsimp only
    split <;> simp [MAX_RETURNED_STRUCTS, List.length_take]
  · unfold fetch_structures_with_bandgap
    dsimp only
    split <;> rfl
  · unfold fetch_structures_with_bandgap
    dsimp only
    split <;> simp [MAX_RETURNED_STRUCTS, List.length_take]
  · rfl
  · simp [fetch_mofs, MAX_RETURNED_STRUCTS_MOFDB, List.length_take]

/-- C2: on each failure path of the fetch tools — empty filter string,
an exception from the client or HTTP call, no provider-specific clause,
or zero items returned — the tool does not raise and returns the
zero-result default with `n_found = 0` and an empty cleaned list. -/
theorem failure_paths_return_zero_result
    (filter : String) (asFormat : Format) (nResults : Int)
    (providersArg : Option (List String)) (DEFAULT_PROVIDERS : List String)
    (normalize : String → String) (urlsOf : String → List String)
    (clientGet : List String → Int → String → Except String OptStructures)
    (save : OptStructures → String → Int → Bool → SaveOut)
    (filter_to_tag : String → String) (ts : String)
    (baseFilter : Option String) (spgNumber : Int) (minBg maxBg : Option PyFloat)
    (DEFAULTS_SPG DEFAULTS_BG : List String)
    (bf : BohFilters) (matchMode bNR : Int) (bFormats : List Format)
    (env : String → Option String)
    (httpPost : BohRequest → Except String (List PyDict))
    (httpGet : String → Except String String) (bts : String)
    (mf : MofFilters) (mNR : Int) (mFormats : List Format)
    (fetchClient : MofdbFetchCall → Except String (List PyDict))
    (jsonParse : String → Option PyVal) (mts : String) :
    (pyStrip filter = "" →
      fetch_structures_with_filter filter asFormat nResults providersArg
        DEFAULT_PROVIDERS normalize urlsOf clientGet save filter_to_tag ts
        = ⟨"", [], 0, []⟩)
    ∧ (∀ e, clientGet (((usedProviders providersArg DEFAULT_PROVIDERS).map urlsOf).flatten)
          nResults (normalize (pyStrip filter)) = Except.error e →
        fetch_structures_with_filter filter asFormat nResults providersArg
          DEFAULT_PROVIDERS normalize urlsOf clientGet save filter_to_tag ts
          = ⟨"", [], 0, []⟩)
    ∧ (fetch_structures_with_spg baseFilter spgNumber asFormat nResults providersArg
        DEFAULTS_SPG normalize [] urlsOf clientGet save filter_to_tag ts
        = ⟨"", [], 0, [], []⟩)
    ∧ (fetch_structures_with_bandgap baseFilter minBg maxBg asFormat nResults
        providersArg DEFAULTS_BG normalize [] urlsOf clientGet save filter_to_tag ts
        = ⟨"", [], 0, [], []⟩)
    ∧ (∀ e, httpPost (buildBohRequest env bf matchMode bNR) = Except.error e →
        fetch_bohrium_crystals bf matchMode bNR bFormats env httpPost httpGet bts
          = ⟨"", [], 0, [], [buildBohRequest env bf matchMode bNR],
             ["Request failed: " ++ e]⟩)
    ∧ (httpPost (buildBohRequest env bf matchMode bNR) = Except.ok [] →
        fetch_bohrium_crystals bf matchMode bNR bFormats env httpPost httpGet bts
          = ⟨"", [], 0, [], [buildBohRequest env bf matchMode bNR],
             ["No structures found."]⟩)
    ∧ (∀ e, fetchClient (mkMofdbCall mf mNR) = Except.error e →
        (fetch_mofs mf mNR mFormats fetchClient jsonParse mts).n_found = 0
        ∧ (fetch_mofs mf mNR mFormats fetchClient jsonParse mts).cleaned_structures
            = []) := by
  refine ⟨fun h0 => ?_, fun e he => ?_, rfl, rfl, fun e he => ?_, fun he => ?_,
          fun e he => ?_⟩
  · simp [fetch_structures_with_filter, h0]
  · by_cases h0 : pyStrip filter = ""
    · simp [fetch_structures_with_filter, h0]
    · simp [fetch_structures_with_filter, h0, he]
  · simp [fetch_bohrium_crystals, he]
  · simp [fetch_bohrium_crystals, he]
  · constructor <;> simp [fetch_mofs, he, save_mofs, saveMofsFrom]

/-- C6: every request that reaches the saving step writes
`summary.json` into the request's output directory, a manifest recording
the applied filters and the result count (plus formats / output
directory); the MOFdb tool does so unconditionally, found structures or
not. -/
theorem summary_manifest_written
    (mf : MofFilters) (mNR : Int) (mFormats : List Format)
    (fetchClient : MofdbFetchCall → Except String (List PyDict))
    (jsonParse : String → Option PyVal) (mts : String)
    (filter : String) (asFormat : Format) (nResults : Int)
    (providersArg : Option (List String)) (DEFAULT_PROVIDERS : List String)
    (normalize : String → String) (urlsOf : String → List String)
    (clientGet : List String → Int → String → Except String OptStructures)
    (save : OptStructures → String → Int → Bool → SaveOut)
    (filter_to_tag : String → String) (ts : String)
    (bf : BohFilters) (matchMode bNR : Int) (bFormats : List Format)
    (env : String → Option String)
    (httpPost : BohRequest → Except String (List PyDict))
    (httpGet : String → Except String String) (bts : String) :
    (let m := fetch_mofs mf mNR mFormats fetchClient jsonParse mts
     (m.output_dir ++ "/summary.json",
       FileContent.mofManifest ⟨mf, mNR, m.n_found, mFormats, m.output_dir⟩)
       ∈ m.writes)
    ∧ (∀ results, pyStrip filter ≠ "" →
        clientGet (((usedProviders providersArg DEFAULT_PROVIDERS).map urlsOf).flatten)
            nResults (normalize (pyStrip filter)) = Except.ok results →
        let r := fetch_structures_with_filter filter asFormat nResults providersArg
          DEFAULT_PROVIDERS normalize urlsOf clientGet save filter_to_tag ts
        (r.output_dir ++ "/summary.json", FileContent.optRawManifest
          ⟨normalize (pyStrip filter),
           sortStrings (usedProviders providersArg DEFAULT_PROVIDERS),
           (save results r.output_dir nResults (asFormat = Format.cif)).providersSeen,
           (save results r.output_dir nResults (asFormat = Format.cif)).files,
           (save results r.output_dir nResults (asFormat = Format.cif)).warnings,
           asFormat, nResults,
           (save results r.output_dir nResults (asFormat = Format.cif)).cleaned.length⟩)
          ∈ r.writes)
    ∧ (∀ items, httpPost (buildBohRequest env bf matchMode bNR) = Except.ok items →
        items ≠ [] →
        let b := fetch_bohrium_crystals bf matchMode bNR bFormats env httpPost httpGet bts
        (b.output_dir ++ "/summary.json", FileContent.bohManifest
          ⟨bf.formula, bohFiltersDict bf, matchMode, items.length, bFormats,
           b.output_dir⟩)
          ∈ b.writes) := by
  refine ⟨?_, fun results h0 hok => ?_, fun items hok hne => ?_⟩
  · exact List.mem_append_right _ (List.Mem.head _)
  · dsimp only [fetch_structures_with_filter]
    rw [if_neg h0, hok]
    exact List.Mem.head _
  · have hie : items.isEmpty = false := by
      cases items
      · exact absurd rfl hne
      · rfl
    simp [fetch_bohrium_crystals, hok, hie]

/-- C7: for every record, `json` among the formats yields a
`{stem}.json` write serializing the record; `cif` among the formats
makes the Bohrium adapter download the record's `cif_file` URL while the
MOFdb adapter writes the embedded `cif` text directly; a record lacking
the URL / text yields a logged warning and no `.cif` write, and every
record is still cleaned and its writes land in the total. -/
theorem per_record_json_and_cif_writes
    (g : String → Except String String) (jp : String → Option PyVal)
    (d : String) (fmts : List Format) (i : Nat) (struct mof : PyDict)
    (items : List PyDict) :
    (Format.json ∈ fmts →
      (d ++ "/" ++ bohCrystalName struct i ++ ".json", FileContent.jsonDict struct)
        ∈ (saveBohriumOne g d fmts i struct).1)
    ∧ (∀ v content, Format.cif ∈ fmts → dictGet struct "cif_file" = some v →
        pyTruthy v = true → g (pyStr v) = Except.ok content →
        (d ++ "/" ++ bohCrystalName struct i ++ ".cif", FileContent.rawBytes content)
          ∈ (saveBohriumOne g d fmts i struct).1)
    ∧ (Format.cif ∈ fmts →
        (∀ v, dictGet struct "cif_file" = some v → pyTruthy v = false) →
        ("No CIF URL for " ++ bohStructId struct i)
            ∈ (saveBohriumOne g d fmts i struct).2.1
        ∧ (saveBohriumOne g d fmts i struct).1
            = (if fmts.contains Format.json then
                [(d ++ "/" ++ bohCrystalName struct i ++ ".json",
                  FileContent.jsonDict struct)]
               else []))
    ∧ (Format.json ∈ fmts →
        (d ++ "/" ++ mofStem mof i ++ ".json", mofJsonContent jp mof)
          ∈ (saveMofsOne jp d fmts i mof).1)
    ∧ (Format.cif ∈ fmts → pyTruthy (gattr mof "cif") = true →
        (d ++ "/" ++ mofStem mof i ++ ".cif",
          FileContent.textFile (pyStr (gattr mof "cif")))
          ∈ (saveMofsOne jp d fmts i mof).1)
    ∧ (Format.cif ∈ fmts → pyTruthy (gattr mof "cif") = false →
        ("No CIF content for " ++ pickIdentifier mof i ++ " (" ++ providerOf mof ++ ")")
            ∈ (saveMofsOne jp d fmts i mof).2.1
        ∧ (saveMofsOne jp d fmts i mof).1
            = (if fmts.contains Format.json then
                [(d ++ "/" ++ mofStem mof i ++ ".json", mofJsonContent jp mof)]
               else []))
    ∧ (save_structures_bohriumcrystal items d fmts g).2.2.length = items.length
    ∧ (save_mofs items d fmts jp).2.2.length = items.length
    ∧ (∀ p, (i, struct) ∈ items.enumFrom 0 →
        p ∈ (saveBohriumOne g d fmts i struct).1 →
        p ∈ (save_structures_bohriumcrystal items d fmts g).1)
    ∧ (∀ p, (i, mof) ∈ items.enumFrom 0 →
        p ∈ (saveMofsOne jp d fmts i mof).1 →
        p ∈ (save_mofs items d fmts jp).1) := by
  refine ⟨fun hj => ?_, fun v content hc hv htr hok => ?_, fun hc hmiss => ?_,
          fun hj => ?_, fun hc htr => ?_, fun hc hfl => ?_, ?_, ?_,
          fun p hmem hp => ?_, fun p hmem hp => ?_⟩
  · simp [saveBohriumOne, hj]
  · simp [saveBohriumOne, hc, hv, htr, hok]
  · cases h : dictGet struct "cif_file" with
    | none => exact ⟨by simp [saveBohriumOne, hc, h], by simp [saveBohriumOne, h, hc]⟩
    | some v =>
        have hv := hmiss v h
        exact ⟨by simp [saveBohriumOne, hc, h, hv], by simp [saveBohriumOne, h, hv, hc]⟩
  · simp [saveMofsOne, hj]
  · simp [saveMofsOne, hc, htr]
  · exact ⟨by simp [saveMofsOne, hc, hfl], by simp [saveMofsOne, hfl, hc]⟩
  · rw [save_structures_bohriumcrystal, saveBohriumFrom_cleaned, List.length_map]
  · rw [save_mofs, saveMofsFrom_cleaned, List.length_map]
  · rw [save_structures_bohriumcrystal, saveBohriumFrom_writes]
    exact List.mem_flatten.mpr ⟨_, List.mem_map.mpr ⟨(i, struct), hmem, rfl⟩, hp⟩
  · rw [save_mofs, saveMofsFrom_writes]
    exact List.mem_flatten.mpr ⟨_, List.mem_map.mpr ⟨(i, mof), hmem, rfl⟩, hp⟩

/-- C4: the per-request output directory is `BASE_OUTPUT_DIR` joined
with `{tag}_{ts}_{hash}` — the truncated tag from the filters alone, the
timestamp, and the first 8 hex characters of the SHA-1 of the serialized
filter string; equal filters and equal timestamp give equal names. -/
theorem output_dir_is_tag_ts_hash
    (mf : MofFilters) (mNR : Int) (mFormats mFormats2 : List Format)
    (fetchClient fetchClient2 : MofdbFetchCall → Except String (List PyDict))
    (jsonParse jsonParse2 : String → Option PyVal) (mts : String)
    (filter : String) (asFormat : Format) (nResults : Int)
    (providersArg : Option (List String)) (DEFAULT_PROVIDERS : List String)
    (normalize : String → String) (urlsOf : String → List String)
    (clientGet : List String → Int → String → Except String OptStructures)
    (save : OptStructures → String → Int → Bool → SaveOut)
    (filter_to_tag : String → String) (ts : String)
    (bf : BohFilters) (matchMode bNR : Int) (bFormats : List Format)
    (env : String → Option String)
    (httpPost : BohRequest → Except String (List PyDict))
    (httpGet : String → Except String String) (bts : String) :
    (fetch_mofs mf mNR mFormats fetchClient jsonParse mts).output_dir
        = BASE_OUTPUT_DIR_MOFDB ++ "/" ++ tag_from_filters mf 40 ++ "_" ++ mts ++ "_"
          ++ (sha1HexOfString (mofdbFilterStr mf mNR)).take 8
    ∧ (fetch_mofs mf mNR mFormats fetchClient jsonParse mts).output_dir
        = (fetch_mofs mf mNR mFormats2 fetchClient2 jsonParse2 mts).output_dir
    ∧ (∀ results, pyStrip filter ≠ "" →
        clientGet (((usedProviders providersArg DEFAULT_PROVIDERS).map urlsOf).flatten)
            nResults (normalize (pyStrip filter)) = Except.ok results →
        (fetch_structures_with_filter filter asFormat nResults providersArg
            DEFAULT_PROVIDERS normalize urlsOf clientGet save filter_to_tag ts).output_dir
          = BASE_OUTPUT_DIR_OPTIMADE ++ "/" ++ filter_to_tag (normalize (pyStrip filter))
            ++ "_" ++ ts ++ "_" ++ (sha1HexOfString (normalize (pyStrip filter))).take 8)
    ∧ (∀ items, httpPost (buildBohRequest env bf matchMode bNR) = Except.ok items →
        items ≠ [] →
        (fetch_bohrium_crystals bf matchMode bNR bFormats env httpPost httpGet
            bts).output_dir
          = BASE_OUTPUT_DIR_BOHRIUM ++ "/" ++ tag_from_filters_bohrium bf 60 ++ "_"
            ++ bts ++ "_" ++ (sha1HexOfString (bohFilterStr bf bNR)).take 8) := by
  refine ⟨rfl, rfl, fun results h0 hok => ?_, fun items hok hne => ?_⟩
  · dsimp only [fetch_structures_with_filter]
    rw [if_neg h0, hok]
  · have hie : items.isEmpty = false := by
      cases items
      · exact absurd rfl hne
      · rfl
    simp [fetch_bohrium_crystals, hok, hie]

/-- Index access into the fan-out: the i-th normalized result is the
query of the i-th (provider, clause) entry. -/
theorem fanOut_getD (u : String → List String)
    (g : List String → Int → String → Except String OptStructures) (n : Int) :
    ∀ (l : List (String × String)) (i : Nat), i < l.length →
      (fanOut u g n l).getD i emptyStub
        = queryOne u g n (l.getD i ("", "")).1 (l.getD i ("", "")).2
  | [], i, h => by simp at h
  | pc :: rest, 0, _ => rfl
  | pc :: rest, i + 1, h => by
      simpa [fanOut] using fanOut_getD u g n rest i (by simpa using h)

/-- C1: the space-group and band-gap tools issue exactly one query per
provider entry of the filters dict; any exception of a provider's query
(`SystemExit` included) becomes the empty `{"structures": {}}` stub
instead of propagating, so the saving and manifest loop always consumes
one result dict per provider. -/
theorem fanout_one_query_per_provider_exception_to_stub
    (urlsOf : String → List String)
    (clientGet : List String → Int → String → Except String OptStructures)
    (nResults : Int) (filters : List (String × String))
    (baseFilter : Option String) (spgNumber : Int) (minBg maxBg : Option PyFloat)
    (asFormat : Format) (providersArg : Option (List String))
    (DEFAULTS_SPG DEFAULTS_BG : List String) (normalize : String → String)
    (save : OptStructures → String → Int → Bool → SaveOut)
    (filter_to_tag : String → String) (ts : String) :
    (fanOut urlsOf clientGet nResults filters).length = filters.length
    ∧ (∀ i, i < filters.length →
        (fanOut urlsOf clientGet nResults filters).getD i emptyStub
          = queryOne urlsOf clientGet nResults (filters.getD i ("", "")).1
              (filters.getD i ("", "")).2)
    ∧ (∀ p c e, clientGet (urlsOf p) nResults c = Except.error e →
        queryOne urlsOf clientGet nResults p c = emptyStub)
    ∧ (∀ p c, urlsOf p = [] → queryOne urlsOf clientGet nResults p c = emptyStub)
    ∧ (filters ≠ [] →
        (fetch_structures_with_spg baseFilter spgNumber asFormat nResults providersArg
            DEFAULTS_SPG normalize filters urlsOf clientGet save filter_to_tag
            ts).providerResults
          = fanOut urlsOf clientGet nResults filters)
    ∧ (filters ≠ [] →
        (fetch_structures_with_bandgap baseFilter minBg maxBg asFormat nResults
            providersArg DEFAULTS_BG normalize filters urlsOf clientGet save
            filter_to_tag ts).providerResults
          = fanOut urlsOf clientGet nResults filters) := by
  have hne_empty : filters ≠ [] → filters.isEmpty = false := by
    intro hne
    cases filters
    · exact absurd rfl hne
    · rfl
  refine ⟨by simp [fanOut], fun i h => fanOut_getD urlsOf clientGet nResults filters i h,
          fun p c e he => ?_, fun p c hp => ?_, fun hne => ?_, fun hne => ?_⟩
  · by_cases hu : (urlsOf p).isEmpty
    · simp [queryOne, hu]
    · simp [queryOne, hu, he]
  · simp [queryOne, hp]
  · simp [fetch_structures_with_spg, hne_empty hne]
  · simp [fetch_structures_with_bandgap, hne_empty hne]

/-! ## Witnesses: concrete instantiations of the claim theorems -/

/-- Witness for C1 at a concrete provider table and client: two filter
entries give two fan-out results; the provider whose query raises and
the provider without URLs both yield the empty stub; the space-group
pipeline consumes exactly these results. -/
theorem fanout_one_query_per_provider_exception_to_stub_witness :
    (fanOut (fun p => if p = "cod" then [] else ["u"])
        (fun _ _ c => if c = "bad" then Except.error "x"
                      else Except.ok ⟨[("a", PyVal.vstr "b")]⟩)
        3 [("alexandria", "good"), ("oqmd", "bad")]).length = 2
    ∧ queryOne (fun p => if p = "cod" then [] else ["u"])
        (fun _ _ c => if c = "bad" then Except.error "x"
                      else Except.ok ⟨[("a", PyVal.vstr "b")]⟩) 3 "oqmd" "bad"
        = emptyStub
    ∧ queryOne (fun p => if p = "cod" then [] else ["u"])
        (fun _ _ c => if c = "bad" then Except.error "x"
                      else Except.ok ⟨[("a", PyVal.vstr "b")]⟩) 3 "cod" "c"
        = emptyStub
    ∧ (fetch_structures_with_spg none 225 Format.cif 3 none [] (fun s => s)
        [("alexandria", "good"), ("oqmd", "bad")]
        (fun p => if p = "cod" then [] else ["u"])
        (fun _ _ c => if c = "bad" then Except.error "x"
                      else Except.ok ⟨[("a", PyVal.vstr "b")]⟩)
        (fun _ _ _ _ => ⟨[], [], [], []⟩) (fun s => s) "t").providerResults
      = fanOut (fun p => if p = "cod" then [] else ["u"])
          (fun _ _ c => if c = "bad" then Except.error "x"
                        else Except.ok ⟨[("a", PyVal.vstr "b")]⟩)
          3 [("alexandria", "good"), ("oqmd", "bad")] := by
  have h := fanout_one_query_per_provider_exception_to_stub
    (fun p => if p = "cod" then [] else ["u"])
    (fun _ _ c => if c = "bad" then Except.error "x"
                  else Except.ok ⟨[("a", PyVal.vstr "b")]⟩)
    3 [("alexandria", "good"), ("oqmd", "bad")] none 225 none none Format.cif
    none [] [] (fun s => s) (fun _ _ _ _ => ⟨[], [], [], []⟩) (fun s => s) "t"
  exact ⟨h.1, h.2.2.1 "oqmd" "bad" "x" (by simp), h.2.2.2.1 "cod" "c" (by simp),
         h.2.2.2.2.1 (by decide)⟩

/-- Witness for C2: a blank filter, a failing HTTP post and a failing
MOFdb client all yield the zero-result default. -/
theorem failure_paths_return_zero_result_witness :
    fetch_structures_with_filter "   " Format.cif 2 none ["mp"] (fun s => s)
        (fun _ => ["u"]) (fun _ _ _ => Except.error "boom")
        (fun _ _ _ _ => ⟨[], [], [], []⟩) (fun s => s) "t"
      = ⟨"", [], 0, []⟩
    ∧ fetch_bohrium_crystals {} 1 10 [Format.json] (fun _ => none)
        (fun _ => Except.error "x") (fun _ => Except.error "x") "t"
      = ⟨"", [], 0, [], [buildBohRequest (fun _ => none) {} 1 10],
         ["Request failed: x"]⟩
    ∧ (fetch_mofs {} 10 [Format.cif] (fun _ => Except.error "e")
        (fun _ => none) "t").n_found = 0 := by
  have h := failure_paths_return_zero_result "   " Format.cif 2 none ["mp"]
    (fun s => s) (fun _ => ["u"]) (fun _ _ _ => Except.error "boom")
    (fun _ _ _ _ => ⟨[], [], [], []⟩) (fun s => s) "t" none 225 none none [] []
    {} 1 10 [Format.json] (fun _ => none) (fun _ => Except.error "x")
    (fun _ => Except.error "x") "t" {} 10 [Format.cif]
    (fun _ => Except.error "e") (fun _ => none) "t"
  exact ⟨h.1 (by decide), h.2.2.2.2.1 "x" rfl, (h.2.2.2.2.2.2 "e" rfl).1⟩

/-- Witness for C4: at default filters, `n_results = 10` and timestamp
`20250101_000000`, the MOFdb output directory evaluates to the tag
"mofdb", the timestamp and the real SHA-1 prefix `74d85f1f`. -/
theorem output_dir_is_tag_ts_hash_witness :
    (fetch_mofs {} 10 [Format.cif] (fun _ => Except.ok []) (fun _ => none)
        "20250101_000000").output_dir
      = "materials_data_mofdb/mofdb_20250101_000000_74d85f1f" := by
  have h := output_dir_is_tag_ts_hash {} 10 [Format.cif] [Format.cif]
    (fun _ => Except.ok []) (fun _ => Except.ok []) (fun _ => none)
    (fun _ => none) "20250101_000000" "f" Format.cif 2 none [] (fun s => s)
    (fun _ => ["u"]) (fun _ _ _ => Except.error "boom")
    (fun _ _ _ _ => ⟨[], [], [], []⟩) (fun s => s) "t" {} 1 10 []
    (fun _ => none) (fun _ => Except.error "x") (fun _ => Except.error "x") "t"
  exact h.1.trans (by decide)

/-- Witness for C6: the MOFdb tool writes its summary manifest even when
the client returns nothing. -/
theorem summary_manifest_written_witness :
    ((fetch_mofs {} 10 [] (fun _ => Except.ok []) (fun _ => none) "t").output_dir
        ++ "/summary.json",
      FileContent.mofManifest ⟨{}, 10,
        (fetch_mofs {} 10 [] (fun _ => Except.ok []) (fun _ => none) "t").n_found, [],
        (fetch_mofs {} 10 [] (fun _ => Except.ok []) (fun _ => none) "t").output_dir⟩)
      ∈ (fetch_mofs {} 10 [] (fun _ => Except.ok []) (fun _ => none) "t").writes := by
  have h := summary_manifest_written {} 10 [] (fun _ => Except.ok [])
    (fun _ => none) "t" "f" Format.cif 2 none [] (fun s => s) (fun _ => ["u"])
    (fun _ _ _ => Except.error "boom") (fun _ _ _ _ => ⟨[], [], [], []⟩)
    (fun s => s) "t" {} 1 10 [] (fun _ => none) (fun _ => Except.error "x")
    (fun _ => Except.error "x") "t"
  exact h.1

/-- Witness for C7: a concrete Bohrium record with an `id` and a
`cif_file` URL gets both its JSON write and its downloaded CIF write. -/
theorem per_record_json_and_cif_writes_witness :
    ("out/bohriumcrystal_s1_0.json",
      FileContent.jsonDict [("id", PyVal.vstr "s1"), ("cif_file", PyVal.vstr "u1")])
      ∈ (saveBohriumOne (fun u => if u = "u1" then Except.ok "CIFDATA" else Except.error "404")
          "out" [Format.json, Format.cif] 0
          [("id", PyVal.vstr "s1"), ("cif_file", PyVal.vstr "u1")]).1
    ∧ ("out/bohriumcrystal_s1_0.cif", FileContent.rawBytes "CIFDATA")
      ∈ (saveBohriumOne (fun u => if u = "u1" then Except.ok "CIFDATA" else Except.error "404")
          "out" [Format.json, Format.cif] 0
          [("id", PyVal.vstr "s1"), ("cif_file", PyVal.vstr "u1")]).1 := by
  have h := per_record_json_and_cif_writes
    (fun u => if u = "u1" then Except.ok "CIFDATA" else Except.error "404")
    (fun _ => none) "out" [Format.json, Format.cif] 0
    [("id", PyVal.vstr "s1"), ("cif_file", PyVal.vstr "u1")] [] []
  refine ⟨?_, ?_⟩
  · have := h.1 (by decide)
    simpa [bohCrystalName, bohStructId, dictGet, pyStr] using this
  · have := h.2.1 (PyVal.vstr "u1") "CIFDATA" (by decide) (by decide) (by decide)
      (by simp [ pyStr])
    simpa [bohCrystalName, bohStructId, dictGet, pyStr] using this

/-- Witness for C8: the header pair on a concrete run's issued request. -/
theorem bohrium_xuserid_header_hardcoded_witness :
    (buildBohRequest (fun _ => none) {} 1 10).headers
      = [("X-User-Id", "117756"), ("Content-Type", "application/json")] := by
  have h := bohrium_xuserid_header_hardcoded {} {} 1 1 10 10 (fun _ => none)
    (fun _ => some "v") [] (fun _ => Except.error "x") (fun _ => Except.error "x") "t"
  exact h.1

/-- Witness for C10: the success envelope survives a raising client. -/
theorem fetch_mofs_always_success_witness :
    (fetch_mofs {} 10 [Format.cif] (fun _ => Except.error "e")
        (fun _ => none) "t").code = 0
    ∧ (fetch_mofs {} 10 [Format.cif] (fun _ => Except.error "e")
        (fun _ => none) "t").message = "Success"
    ∧ (fetch_mofs {} 10 [Format.cif] (fun _ => Except.error "e")
        (fun _ => none) "t").cleaned_structures = [] := by
  have h := fetch_mofs_always_success {} 10 [Format.cif]
    (fun _ => Except.error "e") (fun _ => none) "t"
  exact ⟨h.1, h.2.1, (h.2.2 "e" rfl).1⟩

end MrDice
